import Mathlib

/-!
Shallow embedding of `reddit_scraper.py`.

The program has three parts: a client factory (external, credentials only),
the search-and-flatten pipeline `search_reddit`, and the tabular writer
`save_to_csv`.  The PRAW client library is external: it is modelled by a
`RedditEnv` structure holding the search function and the timestamp
formatter.  Python dicts built by the pipeline are modelled as association
lists in insertion order; the values flowing into them are strings,
integers and booleans, captured by `Value`.
-/

namespace RedditScraper

/-- A value stored in a record dict: the Python code puts strings, ints
(scores) and booleans (`is_self_post`) into the dicts. -/
inductive Value where
  | str (s : String)
  | int (n : Int)
  | bool (b : Bool)
  deriving DecidableEq, Repr

/-- A flat record: a Python dict in insertion order, keys to values. -/
abbrev Record := List (String × Value)

/-- A reddit comment as seen by the pipeline.  `author` is `none` when the
author is deleted (PRAW returns Python `None`); `body` is the comment text;
`created_utc` is the raw timestamp (only ever passed to the formatter). -/
structure Comment where
  author : Option String
  body : String
  score : Int
  id : String
  created_utc : Int
  deriving DecidableEq, Repr

/-- A reddit submission as seen by the pipeline.  `author` is `none` when
deleted; `subredditName` models `submission.subreddit.display_name`;
`comments` is the comment list after `comments.replace_more(limit=0)`
followed by `comments.list()` (both external library calls), i.e. the
directly loaded comments with continuation placeholders dropped. -/
structure Submission where
  title : String
  author : Option String
  subredditName : String
  score : Int
  permalink : String
  created_utc : Int
  id : String
  is_self : Bool
  selftext : String
  comments : List Comment
  deriving DecidableEq, Repr

/-- Model of the external PRAW client.  `search sub query sort tf` is the
full result stream of `reddit.subreddit(sub).search(query, sort=sort,
time_filter=tf)`; the `limit` argument of the real call is modelled by
truncating that stream with `List.take` (PRAW's documented contract is
that at most `limit` results are yielded).  `formatTime` models
`datetime.datetime.fromtimestamp(t).strftime(percent-codes)`. -/
structure RedditEnv where
  search : String → String → String → String → List Submission
  formatTime : Int → String

/-- Python truthiness test on the optional `subreddit` argument:
`reddit.subreddit(subreddit)` when it is a nonempty string, else
`reddit.subreddit('all')`. -/
def resolveSub : Option String → String
  | some s => if s = "" then "all" else s
  | none => "all"

/-- The query built per keyword, line 35: the keyword wrapped in double
quotes for an exact-phrase search. -/
def searchQuery (keyword : String) : String :=
  "\"" ++ keyword ++ "\""

/-- Line 49, `str(submission.author)`: PRAW gives a `Redditor` (whose
`str` is the user name) or Python `None`, whose `str` is the string
`"None"`. -/
def strOfAuthor : Option String → String
  | some name => name
  | none => "None"

/-- Line 74, `str(comment.author) if comment.author else '[deleted]'`. -/
def commentAuthorStr : Option String → String
  | some name => name
  | none => "[deleted]"

/-- Tests whether `needle` starts `hay` (character-wise). -/
def leadsWith : List Char → List Char → Bool
  | [], _ => true
  | _ :: _, [] => false
  | a :: as, b :: bs => a == b && leadsWith as bs

/-- Tests whether `needle` occurs somewhere in `hay` as a contiguous run:
Python's substring operator on strings, character-wise. -/
def findSub : List Char → List Char → Bool
  | needle, [] => needle.isEmpty
  | needle, c :: t => leadsWith needle (c :: t) || findSub needle t

/-- Line 70, `keyword.lower() in body.lower()`: the case-insensitive substring test
the pipeline applies to every comment.  Lower-casing is applied character
by character, which is what `String.toLower` does. -/
def containsCI (body keyword : String) : Bool :=
  findSub (keyword.toList.map Char.toLower) (body.toList.map Char.toLower)

/-- The Post Record dict built for a submission (lines 46-63): the base
dict literal, then `content` appended after the `is_self`/`selftext`
truthiness test, so `content` is the last key in insertion order. -/
def postRecord (env : RedditEnv) (keyword : String) (s : Submission) : Record :=
  [("keyword", .str keyword),
   ("title", .str s.title),
   ("author", .str (strOfAuthor s.author)),
   ("subreddit", .str s.subredditName),
   ("score", .int s.score),
   ("url", .str ("https://www.reddit.com" ++ s.permalink)),
   ("created_utc", .str (env.formatTime s.created_utc)),
   ("post_id", .str s.id),
   ("is_self_post", .bool s.is_self),
   ("content_type", .str "submission"),
   ("content", .str (if s.is_self && !(s.selftext == "") then s.selftext
                     else "[External link]"))]

/-- The Comment Record dict built for a matching comment (lines 71-83),
in dict-literal insertion order. -/
def commentRecord (env : RedditEnv) (keyword : String) (s : Submission)
    (c : Comment) : Record :=
  [("keyword", .str keyword),
   ("title", .str s.title),
   ("author", .str (commentAuthorStr c.author)),
   ("subreddit", .str s.subredditName),
   ("score", .int c.score),
   ("url", .str ("https://www.reddit.com" ++ s.permalink ++ c.id ++ "/")),
   ("created_utc", .str (env.formatTime c.created_utc)),
   ("post_id", .str c.id),
   ("is_self_post", .bool true),
   ("content", .str c.body),
   ("content_type", .str "comment")]

/-- The search-and-flatten pipeline (`search_reddit`, lines 18-86):
iterate keywords, search with sort `new`, append one Post Record per
submission, then append one Comment Record per comment passing the
case-insensitive keyword test.  The `results` accumulator mirrors the
Python list with its `append` calls. -/
def search_reddit (env : RedditEnv) (keywords : List String)
    (subreddit : Option String := none) (limit : Nat := 100)
    (time_filter : String := "week") : List Record :=
  keywords.foldl (fun results keyword =>
    let query := searchQuery keyword
    let submissions :=
      (env.search (resolveSub subreddit) query "new" time_filter).take limit
    submissions.foldl (fun results submission =>
      let results := results ++ [postRecord env keyword submission]
      submission.comments.foldl (fun results comment =>
        if containsCI comment.body keyword then
          results ++ [commentRecord env keyword submission comment]
        else results) results) results) []

/-- The submissions the pipeline sees for one keyword: the search call of
line 39/41 with its limit. -/
def submissionsFor (env : RedditEnv) (keyword : String)
    (subreddit : Option String) (limit : Nat) (time_filter : String) :
    List Submission :=
  (env.search (resolveSub subreddit) (searchQuery keyword) "new"
    time_filter).take limit

/-- The records one submission contributes: its Post Record followed by
the Comment Records of its matching comments, in comment order. -/
def submissionRecords (env : RedditEnv) (keyword : String)
    (s : Submission) : List Record :=
  postRecord env keyword s ::
    (s.comments.filter (fun c => containsCI c.body keyword)).map
      (commentRecord env keyword s)

/-- The records one keyword contributes, in submission order. -/
def keywordRecords (env : RedditEnv) (keyword : String)
    (subreddit : Option String) (limit : Nat) (time_filter : String) :
    List Record :=
  (submissionsFor env keyword subreddit limit time_filter).flatMap
    (submissionRecords env keyword)

/-- Dict access on a record: the value stored under a key, `none` when the
key is absent. -/
def getField (r : Record) (f : String) : Option Value :=
  match r with
  | [] => none
  | (k, v) :: t => if f = k then some v else getField t f

/-- The keys of a record, in insertion order. -/
def recordKeys (r : Record) : List String :=
  r.map Prod.fst

/-- Renders a cell the way the csv module does, via `str(value)`. -/
def Value.toCsvStr : Value → String
  | .str s => s
  | .int n => toString n
  | .bool b => if b then "True" else "False"

/-- One data row of `csv.DictWriter.writerows`: cells in header order, a
missing key rendering as the empty string (the writer's default restval). -/
def csvRow (header : List String) (r : Record) : List String :=
  header.map (fun f =>
    match getField r f with
    | some v => v.toCsvStr
    | none => "")

/-- The set of field names across all records: the Python
`fieldnames = set(); for result in results: fieldnames.update(result.keys())`
loop of lines 95-97. -/
def fieldnamesSet (results : List Record) : Finset String :=
  results.foldl (fun acc r => acc ∪ (r.map Prod.fst).toFinset) ∅

/-- Line 99, `sorted(list(fieldnames))`: the header, lexicographically
sorted. -/
def fieldnames (results : List Record) : List String :=
  (fieldnamesSet results).sort (· ≤ ·)

/-- Observable outcome of `save_to_csv`: the lines printed and, when a
file is written, its name, header row and data rows. -/
structure SaveResult where
  printed : List String
  written : Option (String × List String × List (List String))
  deriving DecidableEq, Repr

/-- The tabular writer (`save_to_csv`, lines 88-106): empty input prints
the no-results message and returns without touching the file; otherwise
the header is the sorted union of field names, one row is written per
record, and the destination is reported. -/
def save_to_csv (results : List Record)
    (filename : String := "reddit_keyword_results.csv") : SaveResult :=
  if results.isEmpty then
    { printed := ["No results found."], written := none }
  else
    let header := fieldnames results
    { printed := ["Results saved to " ++ filename],
      written := some (filename, header, results.map (csvRow header)) }

/-- Marks the records carrying `content_type = "submission"` (Post
Records). -/
def isSubmissionRecord (r : Record) : Bool :=
  decide (getField r "content_type" = some (Value.str "submission"))

/-- The field names both record shapes carry, in the Post Record's
insertion order. -/
def elevenFields : List String :=
  ["keyword", "title", "author", "subreddit", "score", "url",
   "created_utc", "post_id", "is_self_post", "content_type", "content"]

/-- A concrete comment whose author is deleted and whose body contains
the keyword "foo" case-insensitively. -/
def sampleComment : Comment :=
  { author := none, body := "hello FOO world", score := 3, id := "c1",
    created_utc := 10 }

/-- A concrete text submission with a deleted author and an empty body. -/
def sampleSubmission : Submission :=
  { title := "T", author := none, subredditName := "test", score := 1,
    permalink := "/r/test/comments/p1/t/", created_utc := 5, id := "p1",
    is_self := true, selftext := "", comments := [sampleComment] }

/-- A concrete client model returning `sampleSubmission` for every
search. -/
def sampleEnv : RedditEnv :=
  { search := fun _ _ _ _ => [sampleSubmission],
    formatTime := fun n => toString n }

/-- A concrete comment whose body contains the keyword "bar"
case-insensitively. -/
def sampleLinkComment : Comment :=
  { author := some "bob", body := "a Bar indeed", score := 2, id := "c2",
    created_utc := 11 }

/-- A concrete link submission (`is_self = false`) whose comment matches
the keyword "bar". -/
def sampleLinkSubmission : Submission :=
  { title := "L", author := some "alice", subredditName := "test",
    score := 7, permalink := "/r/test/comments/p2/l/", created_utc := 6,
    id := "p2", is_self := false, selftext := "",
    comments := [sampleLinkComment] }

/-- A concrete text submission (`is_self = true`) with a non-empty
body. -/
def sampleTextSubmission : Submission :=
  { title := "S", author := some "carol", subredditName := "test",
    score := 2, permalink := "/r/test/comments/p3/s/", created_utc := 7,
    id := "p3", is_self := true, selftext := "some text", comments := [] }

/-- A concrete client model returning `sampleTextSubmission` for every
search. -/
def sampleTextEnv : RedditEnv :=
  { search := fun _ _ _ _ => [sampleTextSubmission],
    formatTime := fun n => toString n }

/-- Two tiny records with different keys, for writer-level checks. -/
def demoRecordA : Record :=
  [("alpha", .int 1), ("beta", .str "x")]

/-- A second tiny record with a key disjoint from `demoRecordA`. -/
def demoRecordB : Record :=
  [("gamma", .bool true)]

/-- A concrete client model returning `sampleLinkSubmission` for every
search. -/
def sampleLinkEnv : RedditEnv :=
  { search := fun _ _ _ _ => [sampleLinkSubmission],
    formatTime := fun n => toString n }

/-! ## Structural lemmas -/

/-- A left fold whose body appends a per-element block is the flattening
of those blocks after the initial accumulator. -/
theorem foldl_emits {α β : Type _} (body : List β → α → List β)
    (g : α → List β) (hb : ∀ init a, body init a = init ++ g a)
    (l : List α) (init : List β) :
    l.foldl body init = init ++ l.flatMap g := by
  induction l generalizing init with
  | nil => simp
  | cons a t ih => rw [List.foldl_cons, hb, ih, List.flatMap_cons,
      List.append_assoc]

/-- The comment loop of lines 69-84: appending matching comments one by
one equals appending the filtered, mapped block. -/
theorem comment_foldl (env : RedditEnv) (kw : String) (s : Submission)
    (cs : List Comment) (init : List Record) :
    cs.foldl (fun results comment =>
        if containsCI comment.body kw then
          results ++ [commentRecord env kw s comment]
        else results) init
      = init ++ (cs.filter (fun c => containsCI c.body kw)).map
          (commentRecord env kw s) := by
  induction cs generalizing init with
  | nil => simp
  | cons c t ih =>
    by_cases h : containsCI c.body kw
    · simp [h, ih]
    · simp [h, ih]

/-- The pipeline's imperative accumulation equals the structural form:
blocks per keyword in input order, and inside each keyword the Post
Record of each submission immediately followed by its matching Comment
Records. -/
theorem search_reddit_eq (env : RedditEnv) (keywords : List String)
    (subreddit : Option String) (limit : Nat) (time_filter : String) :
    search_reddit env keywords subreddit limit time_filter
      = keywords.flatMap
          (fun kw => keywordRecords env kw subreddit limit time_filter) := by
  have hsub : ∀ (kw : String) (init : List Record) (s : Submission),
      s.comments.foldl (fun results comment =>
          if containsCI comment.body kw then
            results ++ [commentRecord env kw s comment]
          else results) (init ++ [postRecord env kw s])
        = init ++ submissionRecords env kw s := by
    intro kw init s
    rw [comment_foldl]
    simp [submissionRecords]
  have hkw : ∀ (init : List Record) (kw : String),
      ((env.search (resolveSub subreddit) (searchQuery kw) "new"
          time_filter).take limit).foldl (fun results submission =>
        submission.comments.foldl (fun results comment =>
            if containsCI comment.body kw then
              results ++ [commentRecord env kw submission comment]
            else results) (results ++ [postRecord env kw submission]))
          init
        = init ++ keywordRecords env kw subreddit limit time_filter := by
    intro init kw
    rw [foldl_emits _ (submissionRecords env kw) (fun i s => hsub kw i s)]
    rfl
  exact (foldl_emits _ _ hkw keywords []).trans (List.nil_append _)

/-! ## Field access lemmas -/

theorem getField_postRecord_keyword (env : RedditEnv) (kw : String)
    (s : Submission) :
    getField (postRecord env kw s) "keyword" = some (.str kw) := rfl

theorem getField_postRecord_content_type (env : RedditEnv) (kw : String)
    (s : Submission) :
    getField (postRecord env kw s) "content_type"
      = some (.str "submission") := rfl

theorem getField_postRecord_author (env : RedditEnv) (kw : String)
    (s : Submission) :
    getField (postRecord env kw s) "author"
      = some (.str (strOfAuthor s.author)) := rfl

theorem getField_postRecord_content (env : RedditEnv) (kw : String)
    (s : Submission) :
    getField (postRecord env kw s) "content"
      = some (.str (if s.is_self && !(s.selftext == "") then s.selftext
          else "[External link]")) := rfl

theorem getField_commentRecord_keyword (env : RedditEnv) (kw : String)
    (s : Submission) (c : Comment) :
    getField (commentRecord env kw s c) "keyword" = some (.str kw) := rfl

theorem getField_commentRecord_content_type (env : RedditEnv)
    (kw : String) (s : Submission) (c : Comment) :
    getField (commentRecord env kw s c) "content_type"
      = some (.str "comment") := rfl

theorem getField_commentRecord_content (env : RedditEnv) (kw : String)
    (s : Submission) (c : Comment) :
    getField (commentRecord env kw s c) "content"
      = some (.str c.body) := rfl

theorem getField_commentRecord_post_id (env : RedditEnv) (kw : String)
    (s : Submission) (c : Comment) :
    getField (commentRecord env kw s c) "post_id"
      = some (.str c.id) := rfl

theorem getField_commentRecord_is_self_post (env : RedditEnv)
    (kw : String) (s : Submission) (c : Comment) :
    getField (commentRecord env kw s c) "is_self_post"
      = some (.bool true) := rfl

theorem getField_commentRecord_author (env : RedditEnv) (kw : String)
    (s : Submission) (c : Comment) :
    getField (commentRecord env kw s c) "author"
      = some (.str (commentAuthorStr c.author)) := rfl

theorem recordKeys_postRecord (env : RedditEnv) (kw : String)
    (s : Submission) :
    recordKeys (postRecord env kw s) = elevenFields := rfl

theorem recordKeys_commentRecord (env : RedditEnv) (kw : String)
    (s : Submission) (c : Comment) :
    recordKeys (commentRecord env kw s c)
      = ["keyword", "title", "author", "subreddit", "score", "url",
         "created_utc", "post_id", "is_self_post", "content",
         "content_type"] := rfl

/-! ## Membership and counting lemmas -/

/-- A key has a value exactly when it occurs among the record's keys. -/
theorem getField_isSome_iff {r : Record} {f : String} :
    (getField r f).isSome = true ↔ f ∈ recordKeys r := by
  induction r with
  | nil => simp [getField, recordKeys]
  | cons p t ih =>
    obtain ⟨k, v⟩ := p
    by_cases hf : f = k
    · subst hf
      simp [getField, recordKeys]
    · simp [getField, recordKeys, hf] at ih ⊢
      exact ih

theorem mem_fieldnamesSet_aux (l : List Record) (acc : Finset String)
    (x : String) :
    x ∈ l.foldl (fun acc r => acc ∪ (r.map Prod.fst).toFinset) acc ↔
      x ∈ acc ∨ ∃ r ∈ l, x ∈ recordKeys r := by
  induction l generalizing acc with
  | nil => simp
  | cons r t ih =>
    rw [List.foldl_cons, ih]
    simp [recordKeys, or_assoc]

/-- The field-name set collects exactly the keys of the records. -/
theorem mem_fieldnamesSet {l : List Record} {x : String} :
    x ∈ fieldnamesSet l ↔ ∃ r ∈ l, x ∈ recordKeys r := by
  simpa using mem_fieldnamesSet_aux l ∅ x

/-- The field-name set ignores the order of the records. -/
theorem fieldnamesSet_perm {l₁ l₂ : List Record} (h : l₁.Perm l₂) :
    fieldnamesSet l₁ = fieldnamesSet l₂ := by
  ext x
  rw [mem_fieldnamesSet, mem_fieldnamesSet]
  constructor
  · rintro ⟨r, hr, hx⟩
    exact ⟨r, h.mem_iff.mp hr, hx⟩
  · rintro ⟨r, hr, hx⟩
    exact ⟨r, h.mem_iff.mpr hr, hx⟩

/-- Each searched submission's Post Record reaches the output. -/
theorem postRecord_mem (env : RedditEnv) (keywords : List String)
    (subreddit : Option String) (limit : Nat) (time_filter : String)
    (kw : String) (s : Submission) (hk : kw ∈ keywords)
    (hs : s ∈ submissionsFor env kw subreddit limit time_filter) :
    postRecord env kw s
      ∈ search_reddit env keywords subreddit limit time_filter := by
  rw [search_reddit_eq, List.mem_flatMap]
  refine ⟨kw, hk, ?_⟩
  rw [keywordRecords, List.mem_flatMap]
  refine ⟨s, hs, ?_⟩
  rw [submissionRecords]
  exact List.mem_cons_self _ _

/-- Each matching comment's Comment Record reaches the output. -/
theorem commentRecord_mem (env : RedditEnv) (keywords : List String)
    (subreddit : Option String) (limit : Nat) (time_filter : String)
    (kw : String) (s : Submission) (c : Comment) (hk : kw ∈ keywords)
    (hs : s ∈ submissionsFor env kw subreddit limit time_filter)
    (hc : c ∈ s.comments) (hm : containsCI c.body kw = true) :
    commentRecord env kw s c
      ∈ search_reddit env keywords subreddit limit time_filter := by
  rw [search_reddit_eq, List.mem_flatMap]
  refine ⟨kw, hk, ?_⟩
  rw [keywordRecords, List.mem_flatMap]
  refine ⟨s, hs, ?_⟩
  rw [submissionRecords]
  exact List.mem_cons_of_mem _
    (List.mem_map_of_mem _ (List.mem_filter.mpr ⟨hc, hm⟩))

/-- Every output record is the Post Record of a searched submission or
the Comment Record of one of its matching comments. -/
theorem mem_search_reddit_cases (env : RedditEnv) (keywords : List String)
    (subreddit : Option String) (limit : Nat) (time_filter : String)
    (r : Record)
    (hr : r ∈ search_reddit env keywords subreddit limit time_filter) :
    ∃ kw ∈ keywords,
      ∃ s ∈ submissionsFor env kw subreddit limit time_filter,
        r = postRecord env kw s ∨
          ∃ c ∈ s.comments, containsCI c.body kw = true ∧
            r = commentRecord env kw s c := by
  rw [search_reddit_eq, List.mem_flatMap] at hr
  obtain ⟨kw, hkw, hr⟩ := hr
  rw [keywordRecords, List.mem_flatMap] at hr
  obtain ⟨s, hs, hr⟩ := hr
  rw [submissionRecords, List.mem_cons] at hr
  refine ⟨kw, hkw, s, hs, ?_⟩
  rcases hr with h | h
  · exact Or.inl h
  · rw [List.mem_map] at h
    obtain ⟨c, hc, hrc⟩ := h
    rw [List.mem_filter] at hc
    exact Or.inr ⟨c, hc.1, hc.2, hrc.symm⟩

theorem isSubmissionRecord_postRecord (env : RedditEnv) (kw : String)
    (s : Submission) : isSubmissionRecord (postRecord env kw s) = true := rfl

theorem isSubmissionRecord_commentRecord (env : RedditEnv) (kw : String)
    (s : Submission) (c : Comment) :
    isSubmissionRecord (commentRecord env kw s c) = false := rfl

/-- One submission's block holds exactly one Post Record. -/
theorem countP_submissionRecords (env : RedditEnv) (kw : String)
    (s : Submission) :
    (submissionRecords env kw s).countP isSubmissionRecord = 1 := by
  rw [submissionRecords, List.countP_cons]
  simp [isSubmissionRecord_postRecord, List.countP_eq_zero,
    isSubmissionRecord_commentRecord]

/-- One keyword's block holds one Post Record per searched submission. -/
theorem countP_keywordRecords (env : RedditEnv) (kw : String)
    (subreddit : Option String) (limit : Nat) (time_filter : String) :
    (keywordRecords env kw subreddit limit time_filter).countP
        isSubmissionRecord
      = (submissionsFor env kw subreddit limit time_filter).length := by
  rw [keywordRecords]
  generalize submissionsFor env kw subreddit limit time_filter = subs
  induction subs with
  | nil => simp
  | cons s t ih =>
    rw [List.flatMap_cons, List.countP_append, ih,
      countP_submissionRecords, List.length_cons, Nat.add_comm]

/-! ## Claims -/

/-- C1: every record the pipeline emits with content_type "comment" has
its content (the comment body), lower-cased, containing the record's
keyword field, lower-cased, as a substring; comments failing the
case-insensitive test yield no record, so no emitted Comment Record can
violate this. -/
theorem comment_content_contains_keyword (env : RedditEnv)
    (keywords : List String) (subreddit : Option String) (limit : Nat)
    (time_filter : String) (r : Record) (kw body : String)
    (hr : r ∈ search_reddit env keywords subreddit limit time_filter)
    (ht : getField r "content_type" = some (.str "comment"))
    (hk : getField r "keyword" = some (.str kw))
    (hb : getField r "content" = some (.str body)) :
    containsCI body kw = true := by
  obtain ⟨kw0, _, s, _, h | ⟨c, _, hm, h⟩⟩ :=
    mem_search_reddit_cases env keywords subreddit limit time_filter r hr
  · subst h
    rw [getField_postRecord_content_type] at ht
    exact absurd ht (by decide)
  · subst h
    rw [getField_commentRecord_keyword] at hk
    rw [getField_commentRecord_content] at hb
    simp only [Option.some.injEq, Value.str.injEq] at hk hb
    subst hk
    subst hb
    exact hm

/-- Witness for C1: the sample comment body contains "foo"
case-insensitively. -/
theorem comment_content_contains_keyword_witness :
    containsCI "hello FOO world" "foo" = true :=
  comment_content_contains_keyword sampleEnv ["foo"] none 100 "week"
    (commentRecord sampleEnv "foo" sampleSubmission sampleComment)
    "foo" "hello FOO world" (by decide) (by decide) (by decide) (by decide)

/-- C2: for every keyword list (non-empty or not) and every limit, the
output holds at most `limit * keywords.length` records with content_type
"submission": each per-keyword search yields at most `limit` submissions
and each submission yields exactly one Post Record. -/
theorem post_record_count_le (env : RedditEnv) (keywords : List String)
    (subreddit : Option String) (limit : Nat) (time_filter : String) :
    (search_reddit env keywords subreddit limit time_filter).countP
        isSubmissionRecord
      ≤ limit * keywords.length := by
  rw [search_reddit_eq]
  induction keywords with
  | nil => simp
  | cons k ks ih =>
    rw [List.flatMap_cons, List.countP_append, countP_keywordRecords]
    have hlen : (submissionsFor env k subreddit limit time_filter).length
        ≤ limit := by
      rw [submissionsFor]
      exact List.length_take_le _ _
    rw [List.length_cons, Nat.mul_succ]
    omega

/-- C5: the output groups each keyword's records contiguously in input
order, and inside a keyword each submission's Post Record immediately
precedes the Comment Records of that submission's matching comments;
every record of a keyword's block carries that keyword. -/
theorem pipeline_ordering (env : RedditEnv) (keywords : List String)
    (subreddit : Option String) (limit : Nat) (time_filter : String) :
    search_reddit env keywords subreddit limit time_filter
      = keywords.flatMap (fun kw =>
          (submissionsFor env kw subreddit limit time_filter).flatMap
            (fun s => postRecord env kw s ::
              (s.comments.filter (fun c => containsCI c.body kw)).map
                (commentRecord env kw s))) ∧
    ∀ kw r, r ∈ keywordRecords env kw subreddit limit time_filter →
      getField r "keyword" = some (.str kw) := by
  constructor
  · rw [search_reddit_eq]
    rfl
  · intro kw r hr
    rw [keywordRecords, List.mem_flatMap] at hr
    obtain ⟨s, _, hr⟩ := hr
    rw [submissionRecords, List.mem_cons] at hr
    rcases hr with h | h
    · subst h
      exact getField_postRecord_keyword env kw s
    · rw [List.mem_map] at h
      obtain ⟨c, _, h⟩ := h
      subst h
      exact getField_commentRecord_keyword env kw s c

/-- Witness for C5: a record of the keyword "foo" block carries keyword
"foo". -/
theorem pipeline_ordering_witness :
    getField (commentRecord sampleEnv "foo" sampleSubmission sampleComment)
        "keyword" = some (.str "foo") :=
  (pipeline_ordering sampleEnv ["foo"] none 100 "week").2 "foo"
    (commentRecord sampleEnv "foo" sampleSubmission sampleComment)
    (by decide)

/-- C6: a matching comment's record reaches the output with post_id equal
to the comment's own id (so not the parent post's id whenever the two ids
differ) and content_type "comment". -/
theorem comment_identifier (env : RedditEnv) (keywords : List String)
    (subreddit : Option String) (limit : Nat) (time_filter : String)
    (kw : String) (s : Submission) (c : Comment) (hk : kw ∈ keywords)
    (hs : s ∈ submissionsFor env kw subreddit limit time_filter)
    (hc : c ∈ s.comments) (hm : containsCI c.body kw = true) :
    commentRecord env kw s c
        ∈ search_reddit env keywords subreddit limit time_filter ∧
    getField (commentRecord env kw s c) "post_id" = some (.str c.id) ∧
    getField (commentRecord env kw s c) "content_type"
      = some (.str "comment") ∧
    (c.id ≠ s.id →
      getField (commentRecord env kw s c) "post_id" ≠ some (.str s.id)) := by
  refine ⟨commentRecord_mem env keywords subreddit limit time_filter
    kw s c hk hs hc hm, rfl, rfl, ?_⟩
  intro hne
  rw [getField_commentRecord_post_id]
  simp only [ne_eq, Option.some.injEq, Value.str.injEq]
  exact hne

/-- Witness for C6: the sample comment record is emitted and its post_id
is the comment id "c1", not the parent id "p1". -/
theorem comment_identifier_witness :
    getField (commentRecord sampleEnv "foo" sampleSubmission sampleComment)
        "post_id" = some (.str "c1") ∧
    getField (commentRecord sampleEnv "foo" sampleSubmission sampleComment)
        "post_id" ≠ some (.str "p1") := by
  have h := comment_identifier sampleEnv ["foo"] none 100 "week" "foo"
    sampleSubmission sampleComment (by decide) (by decide) (by decide)
    (by decide)
  exact ⟨h.2.1, h.2.2.2 (by decide)⟩

/-- C9: every emitted record with content_type "comment" has
is_self_post true, whatever the parent submission's is_self value is:
the field is the literal True of line 80. -/
theorem comment_is_self_post_constant (env : RedditEnv)
    (keywords : List String) (subreddit : Option String) (limit : Nat)
    (time_filter : String) (r : Record)
    (hr : r ∈ search_reddit env keywords subreddit limit time_filter)
    (ht : getField r "content_type" = some (.str "comment")) :
    getField r "is_self_post" = some (.bool true) := by
  obtain ⟨kw, _, s, _, h | ⟨c, _, _, h⟩⟩ :=
    mem_search_reddit_cases env keywords subreddit limit time_filter r hr
  · subst h
    rw [getField_postRecord_content_type] at ht
    exact absurd ht (by decide)
  · subst h
    exact getField_commentRecord_is_self_post env kw s c

/-- Witness for C9: the comment under a link post (is_self false) still
gets is_self_post true. -/
theorem comment_is_self_post_constant_witness :
    sampleLinkSubmission.is_self = false ∧
    getField (commentRecord sampleLinkEnv "bar" sampleLinkSubmission
        sampleLinkComment) "is_self_post" = some (.bool true) :=
  ⟨by decide,
    comment_is_self_post_constant sampleLinkEnv ["bar"] none 100 "week"
      (commentRecord sampleLinkEnv "bar" sampleLinkSubmission
        sampleLinkComment)
      (by decide) (by decide)⟩

/-- C3 counterexample: the sample post's author is deleted, yet the
emitted Post Record's author field is the string "None" (Python's
`str(None)`), not the "[deleted]" placeholder, which line 74 only applies
to comments. -/
theorem post_deleted_author_counterexample :
    sampleSubmission.author = none ∧
    ((search_reddit sampleEnv ["foo"] none 100 "week").head?.map
        (fun r => (getField r "content_type", getField r "author")))
      = some (some (.str "submission"), some (.str "None")) ∧
    Value.str "None" ≠ Value.str "[deleted]" := by
  decide

/-- C3 amended: a post with a deleted author still yields a record (no
failure), with author field "None"; the "[deleted]" placeholder is
substituted only for deleted comment authors. -/
theorem deleted_author_fields (env : RedditEnv) (keywords : List String)
    (subreddit : Option String) (limit : Nat) (time_filter : String)
    (kw : String) (s : Submission) (hk : kw ∈ keywords)
    (hs : s ∈ submissionsFor env kw subreddit limit time_filter)
    (ha : s.author = none) :
    postRecord env kw s
        ∈ search_reddit env keywords subreddit limit time_filter ∧
    getField (postRecord env kw s) "author" = some (.str "None") ∧
    ∀ c ∈ s.comments, containsCI c.body kw = true → c.author = none →
      commentRecord env kw s c
          ∈ search_reddit env keywords subreddit limit time_filter ∧
      getField (commentRecord env kw s c) "author"
        = some (.str "[deleted]") := by
  refine ⟨postRecord_mem env keywords subreddit limit time_filter
    kw s hk hs, ?_, ?_⟩
  · simp [getField_postRecord_author, ha, strOfAuthor]
  · intro c hc hm hca
    refine ⟨commentRecord_mem env keywords subreddit limit time_filter
      kw s c hk hs hc hm, ?_⟩
    simp [getField_commentRecord_author, hca, commentAuthorStr]

/-- Witness for the amended C3 at the concrete sample pipeline. -/
theorem deleted_author_fields_witness :
    getField (postRecord sampleEnv "foo" sampleSubmission) "author"
      = some (.str "None") ∧
    getField (commentRecord sampleEnv "foo" sampleSubmission sampleComment)
        "author" = some (.str "[deleted]") := by
  have h := deleted_author_fields sampleEnv ["foo"] none 100 "week" "foo"
    sampleSubmission (by decide) (by decide) (by decide)
  exact ⟨h.2.1, (h.2.2 sampleComment (by decide) (by decide) (by decide)).2⟩

/-- C4 counterexample: the sample post is a text post (is_self true) with
an empty body, yet its record's content is the external-link sentinel and
not the body, because line 60 also tests the truthiness of `selftext`. -/
theorem post_content_counterexample :
    sampleSubmission.is_self = true ∧
    ((search_reddit sampleEnv ["foo"] none 100 "week").head?.map
        (fun r => getField r "content"))
      = some (some (.str "[External link]")) ∧
    Value.str "[External link]" ≠ Value.str sampleSubmission.selftext := by
  decide

/-- C4 amended: an emitted Post Record's content equals the post body
when the post is a text post with a non-empty body, and equals the
external-link sentinel otherwise (link posts, and text posts whose body
is empty). -/
theorem post_content_field (env : RedditEnv) (keywords : List String)
    (subreddit : Option String) (limit : Nat) (time_filter : String)
    (kw : String) (s : Submission) (hk : kw ∈ keywords)
    (hs : s ∈ submissionsFor env kw subreddit limit time_filter) :
    postRecord env kw s
        ∈ search_reddit env keywords subreddit limit time_filter ∧
    (s.is_self = true → s.selftext ≠ "" →
      getField (postRecord env kw s) "content" = some (.str s.selftext)) ∧
    (s.is_self = false ∨ s.selftext = "" →
      getField (postRecord env kw s) "content"
        = some (.str "[External link]")) := by
  refine ⟨postRecord_mem env keywords subreddit limit time_filter
    kw s hk hs, ?_, ?_⟩
  · intro h1 h2
    rw [getField_postRecord_content]
    simp [h1, h2]
  · rintro (h | h) <;> rw [getField_postRecord_content] <;> simp [h]

/-- Witness for the amended C4: body content on a non-empty text post,
sentinel on a link post. -/
theorem post_content_field_witness :
    getField (postRecord sampleTextEnv "baz" sampleTextSubmission)
        "content" = some (.str "some text") ∧
    getField (postRecord sampleLinkEnv "bar" sampleLinkSubmission)
        "content" = some (.str "[External link]") := by
  have h1 := post_content_field sampleTextEnv ["baz"] none 100 "week"
    "baz" sampleTextSubmission (by decide) (by decide)
  have h2 := post_content_field sampleLinkEnv ["bar"] none 100 "week"
    "bar" sampleLinkSubmission (by decide) (by decide)
  exact ⟨h1.2.1 (by decide) (by decide), h2.2.2 (Or.inl (by decide))⟩

/-- C7: the header is the lexicographically sorted union of the field
names over all records, invariant under permutation of the record
sequence, and it is the header of the file the writer produces. -/
theorem fieldnames_sorted_union (l₁ l₂ : List Record) (fn : String)
    (hp : l₁.Perm l₂) (hne : l₁ ≠ []) :
    fieldnames l₁ = fieldnames l₂ ∧
    (fieldnames l₁).Sorted (· ≤ ·) ∧
    (∀ x, x ∈ fieldnames l₁ ↔ ∃ r ∈ l₁, x ∈ recordKeys r) ∧
    (save_to_csv l₁ fn).written
      = some (fn, fieldnames l₁, l₁.map (csvRow (fieldnames l₁))) := by
  refine ⟨?_, ?_, ?_, ?_⟩
  · rw [fieldnames, fieldnames, fieldnamesSet_perm hp]
  · exact Finset.sort_sorted _ _
  · intro x
    rw [fieldnames, Finset.mem_sort, mem_fieldnamesSet]
  · simp [save_to_csv, List.isEmpty_iff, hne]

/-- Witness for C7: two records in both orders give the same header, and
the writer reports that header. -/
theorem fieldnames_sorted_union_witness :
    fieldnames [demoRecordA, demoRecordB]
      = fieldnames [demoRecordB, demoRecordA] ∧
    (save_to_csv [demoRecordA, demoRecordB] "out.csv").written
      = some ("out.csv", fieldnames [demoRecordA, demoRecordB],
          [demoRecordA, demoRecordB].map
            (csvRow (fieldnames [demoRecordA, demoRecordB]))) := by
  have h := fieldnames_sorted_union [demoRecordA, demoRecordB]
    [demoRecordB, demoRecordA] "out.csv" (List.Perm.swap _ _ _)
    (by decide)
  exact ⟨h.1, h.2.2.2⟩

/-- C8: on empty input the writer prints the no-results message and
writes nothing; on non-empty input it writes the file, one row per
record under the sorted header, and reports the destination path. -/
theorem save_to_csv_behavior (results : List Record) (filename : String) :
    ((save_to_csv results filename).written = none ↔ results = []) ∧
    (results = [] →
      (save_to_csv results filename).printed = ["No results found."]) ∧
    (results ≠ [] →
      (save_to_csv results filename).printed
          = ["Results saved to " ++ filename] ∧
        (save_to_csv results filename).written
          = some (filename, fieldnames results,
              results.map (csvRow (fieldnames results)))) := by
  by_cases h : results = []
  · subst h
    simp [save_to_csv]
  · simp [save_to_csv, List.isEmpty_iff, h]

/-- Witness for C8 at an empty and a singleton record list. -/
theorem save_to_csv_behavior_witness :
    (save_to_csv [] "out.csv").written = none ∧
    (save_to_csv [demoRecordA] "out.csv").printed
      = ["Results saved to " ++ "out.csv"] := by
  refine ⟨(save_to_csv_behavior [] "out.csv").1.mpr rfl, ?_⟩
  exact ((save_to_csv_behavior [demoRecordA] "out.csv").2.2 (by decide)).1

/-- Every output record's key set is the fixed eleven-field schema. -/
theorem recordKeys_toFinset_eq (env : RedditEnv) (keywords : List String)
    (subreddit : Option String) (limit : Nat) (time_filter : String)
    (r : Record)
    (hr : r ∈ search_reddit env keywords subreddit limit time_filter) :
    (recordKeys r).toFinset = elevenFields.toFinset := by
  obtain ⟨kw, _, s, _, h | ⟨c, _, _, h⟩⟩ :=
    mem_search_reddit_cases env keywords subreddit limit time_filter r hr
  · subst h
    rw [recordKeys_postRecord]
  · subst h
    rw [recordKeys_commentRecord]
    decide

/-- C10: every emitted record carries exactly the eleven fixed field
names, so the writer's union of field names equals each single record's
key set and every header field has a value on every record: no cell of a
written row comes from a missing key. -/
theorem records_fixed_schema (env : RedditEnv) (keywords : List String)
    (subreddit : Option String) (limit : Nat) (time_filter : String)
    (r : Record)
    (hr : r ∈ search_reddit env keywords subreddit limit time_filter) :
    (recordKeys r).toFinset = elevenFields.toFinset ∧
    fieldnamesSet (search_reddit env keywords subreddit limit time_filter)
      = (recordKeys r).toFinset ∧
    ∀ f ∈ fieldnames
        (search_reddit env keywords subreddit limit time_filter),
      (getField r f).isSome = true := by
  have hkeys := recordKeys_toFinset_eq env keywords subreddit limit
    time_filter r hr
  have hset :
      fieldnamesSet (search_reddit env keywords subreddit limit
        time_filter) = elevenFields.toFinset := by
    ext x
    rw [mem_fieldnamesSet]
    constructor
    · rintro ⟨r2, hr2, hx⟩
      rw [← recordKeys_toFinset_eq env keywords subreddit limit
        time_filter r2 hr2]
      exact List.mem_toFinset.mpr hx
    · intro hx
      refine ⟨r, hr, ?_⟩
      rw [← hkeys] at hx
      exact List.mem_toFinset.mp hx
  refine ⟨hkeys, by rw [hset, hkeys], ?_⟩
  intro f hf
  rw [fieldnames, Finset.mem_sort, hset, ← hkeys] at hf
  rw [getField_isSome_iff]
  exact List.mem_toFinset.mp hf

/-- Witness for C10 on the sample pipeline's Post Record. -/
theorem records_fixed_schema_witness :
    (recordKeys (postRecord sampleEnv "foo" sampleSubmission)).toFinset
      = elevenFields.toFinset ∧
    (getField (postRecord sampleEnv "foo" sampleSubmission)
        "content").isSome = true := by
  have h := records_fixed_schema sampleEnv ["foo"] none 100 "week"
    (postRecord sampleEnv "foo" sampleSubmission) (by decide)
  refine ⟨h.1, h.2.2 "content" ?_⟩
  rw [fieldnames, Finset.mem_sort]
  decide

end RedditScraper
